import Mathlib

/-!
Verification development for the object-document mapping layer of
`abiflows` (`src/abiflows/core/models.py`).

The Python source is shallowly embedded below.  Domain objects supplied by
the external scientific library (abipy tasks, works, flows) are modelled by
plain records exposing exactly the capability set the mapper reads off them
(identifier, class name, status, working directory, output-directory
listing, optional main-output accessor, input object, event report,
optional `open_gsr` capability).  The mongoengine documents are modelled as
Lean structures whose fields keep the names and declaration order of the
Python classes.  Fallible Python code (attribute errors, index errors,
GridFS failures) is modelled with `Except`.
-/

set_option autoImplicit false

namespace Abiflows

/-- Python-level exceptions that the embedded code can raise. -/
inductive PyErr
  | keyError (msg : String)
  | indexError (msg : String)
  | typeError (msg : String)
  | attributeError (msg : String)
  | gridFsError (msg : String)
  deriving DecidableEq, Repr

/-- A GridFS blob.  `content` is the stored bytes; `failsDelete` models
whether the backing store raises when `delete` is invoked on this blob
(external nondeterminism of the storage backend, irrelevant to the
conversion claims where it is always `false`). -/
structure Blob where
  content : String
  failsDelete : Bool := false
  deriving DecidableEq, Repr

/-- A file sitting in a node's output directory, identified by the abinit
extension it matches (`has_abiext`) and its content. -/
structure DirFile where
  ext : String
  content : String
  deriving DecidableEq, Repr

/-- A node's output directory, as the list of files it holds. -/
abbrev Directory := List DirFile

/-- Model of abipy `Directory.has_abiext`: the (first) file of the
directory matching the extension, or `none` (falsy path) if absent. -/
def Directory.has_abiext (d : Directory) (ext : String) : Option DirFile :=
  d.find? (fun f => f.ext == ext)

/-- Status of a domain node (abipy `Status` object); `str` is its string
rendering, i.e. what Python `str(node.status)` returns. -/
inductive NodeStatus
  | Initialized
  | Ready
  | Running
  | Completed
  | Err
  deriving DecidableEq, Repr

/-- String form of a status, modelling Python `str(node.status)`. -/
def NodeStatus.str : NodeStatus → String
  | .Initialized => "Initialized"
  | .Ready => "Ready"
  | .Running => "Running"
  | .Completed => "Completed"
  | .Err => "Error"

/-- The node-level capability set the mapper reads off any domain object
(task, work or flow): `node_id`, class name, status, working directory,
output directory, and the optional main-output accessor.  `output_file`
is `some c` when `hasattr(node, "output_file")` holds and
`node.output_file.read()` returns `c`; works and flows have `none`. -/
structure DomNode where
  node_id : Int
  className : String
  status : NodeStatus
  workdir : String
  outdir : Directory
  output_file : Option String
  deriving DecidableEq, Repr

/-- `MongoFiles` embedded document: eight `AbiFileField` slots, in the
declaration order of the Python class. -/
structure MongoFiles where
  gsr : Option Blob := none
  hist : Option Blob := none
  phbst : Option Blob := none
  phdos : Option Blob := none
  sigres : Option Blob := none
  mdf : Option Blob := none
  ddb : Option Blob := none
  output_file : Option Blob := none
  deriving DecidableEq, Repr

/-- The `(field key, abiext)` pairs of `MongoFiles._fields`, in declaration
order, as iterated by `MongoFiles.from_node`.  The `abiform` flag ("b"/"t")
only selects the text/binary open mode and is not modelled. -/
def mongoFilesFieldExts : List (String × String) :=
  [("gsr", "GSR.nc"), ("hist", "HIST"), ("phbst", "PHBST.nc"),
   ("phdos", "PHDOS.nc"), ("sigres", "SIGRES.nc"), ("mdf", "MDF.nc"),
   ("ddb", "DDB"), ("output_file", "abo")]

/-- Helper for `abiextToFname`: Python `s.replace(".nc", "")`, specialised
to the fixed pattern `".nc"` (left-to-right, non-overlapping, replace all
occurrences — exactly Python `str.replace` for this pattern). -/
def removeDotNc : List Char → List Char
  | '.' :: 'n' :: 'c' :: rest => removeDotNc rest
  | c :: rest => c :: removeDotNc rest
  | [] => []

/-- The slot name the `from_node` loop computes from an extension:
Python `ext.replace(".nc", "").lower()`. -/
def abiextToFname (ext : String) : String :=
  String.mk ((removeDotNc ext.data).map Char.toLower)

/-- A blob freshly written to GridFS by `proxy.put` from content `c`. -/
def blobOf (c : String) : Blob := { content := c }

/-- A blob freshly written to GridFS from a file of the output directory. -/
def blobOfFile (f : DirFile) : Blob := { content := f.content }

/-- Python `getattr(new, fname)` followed by `proxy.put(f)`: stores the
blob into the named slot; an `fname` naming no field of the document
raises `AttributeError` (mongoengine documents have no attribute
fallback). -/
def MongoFiles.setSlot (fs : MongoFiles) (fname : String) (b : Blob) :
    Except PyErr MongoFiles :=
  match fname with
  | "gsr" => .ok { fs with gsr := some b }
  | "hist" => .ok { fs with hist := some b }
  | "phbst" => .ok { fs with phbst := some b }
  | "phdos" => .ok { fs with phdos := some b }
  | "sigres" => .ok { fs with sigres := some b }
  | "mdf" => .ok { fs with mdf := some b }
  | "ddb" => .ok { fs with ddb := some b }
  | "output_file" => .ok { fs with output_file := some b }
  | other => .error (.attributeError other)

/-- The field loop of `MongoFiles.from_node`: for each `AbiFileField`,
if `node.outdir.has_abiext(ext)` is truthy, open the file and `put` its
content into the slot named `ext.replace(".nc", "").lower()`. -/
def fromNodeLoop (node : DomNode) :
    List (String × String) → MongoFiles → Except PyErr MongoFiles
  | [], fs => .ok fs
  | (_, ext) :: rest, fs =>
    match node.outdir.has_abiext ext with
    | none => fromNodeLoop node rest fs
    | some f =>
      match fs.setSlot (abiextToFname ext) (blobOfFile f) with
      | .ok fs2 => fromNodeLoop node rest fs2
      | .error e => .error e

/-- `MongoFiles.from_node`: run the field loop over the output directory,
then the special treatment of the main output (`node.output_file` is not
located in `node.outdir`): if the node has the accessor, `put` its
`read()` content into the `output_file` slot. -/
def MongoFiles.from_node (node : DomNode) : Except PyErr MongoFiles :=
  match fromNodeLoop node mongoFilesFieldExts {} with
  | .error e => .error e
  | .ok fs =>
    match node.output_file with
    | some c => .ok { fs with output_file := some (blobOf c) }
    | none => .ok fs

/-- The eight `AbiFileField` slots of a `MongoFiles` document, in the
declaration order iterated by `self._fields.values()`. -/
def MongoFiles.slotsList (fs : MongoFiles) : List (Option Blob) :=
  [fs.gsr, fs.hist, fs.phbst, fs.phdos, fs.sigres, fs.mdf, fs.ddb,
   fs.output_file]

/-- The populated slots of a file-set, in field order. -/
def MongoFiles.populated (fs : MongoFiles) : List Blob :=
  fs.slotsList.filterMap id

/-- The slot loop of `MongoFiles.delete`: for each slot holding a blob
(`hasattr(value, "delete")`), call the GridFS delete.  The source wraps
the call in no try/except, so an exception from the backing store
propagates immediately and the remaining slots are not visited.  Returns
the blobs whose deletion was attempted (in order) and the propagated
exception, if any.  (For an unset slot mongoengine hands back an empty
proxy whose delete is a no-op on the store; observationally this is the
skip modelled here.) -/
def deleteSlots : List (Option Blob) → List Blob × Option PyErr
  | [] => ([], none)
  | none :: rest => deleteSlots rest
  | some b :: rest =>
    if b.failsDelete then ([b], some (.gridFsError b.content))
    else
      let (t, e) := deleteSlots rest
      (b :: t, e)

/-- `MongoFiles.delete`: attempt the GridFS deletion of every populated
slot in field order, stopping at the first slot whose deletion raises. -/
def MongoFiles.delete (fs : MongoFiles) : List Blob × Option PyErr :=
  deleteSlots fs.slotsList

/-- Structure dictionary of a pymatgen structure: `structure.as_dict()`
is modelled as an opaque rendering. -/
structure PmgStructure where
  sdict : String
  deriving DecidableEq, Repr

/-- The abinit input object of a task: its `as_dict()` rendering, its
`str()` rendering, and its `structure` attribute. -/
structure AbinitInput where
  asDict : String
  inputStr : String
  struct : PmgStructure
  deriving DecidableEq, Repr

/-- The event report (quality summary) returned by
`task.get_event_report()`, with the three counters the mapper copies and
its `as_dict()` rendering. -/
structure EventReport where
  num_errors : Int
  num_comments : Int
  num_warnings : Int
  asDict : String
  deriving DecidableEq, Repr

/-- A domain task: its node capabilities plus the task-specific ones the
mapper reads.  `eventReport` models `task.get_event_report()`; the source
uses it unconditionally (its `TODO: Handle None!` comment notwithstanding)
and the spec's capability set presumes it available.  `openGsr` is `some`
exactly when `hasattr(task, "open_gsr")`, and then holds the structure of
the opened GSR file. -/
structure DomTask where
  node : DomNode
  input : AbinitInput
  eventReport : EventReport
  openGsr : Option PmgStructure
  deriving DecidableEq, Repr

/-- A domain work: its node capabilities plus the tasks it iterates over. -/
structure DomWork where
  node : DomNode
  tasks : List DomTask
  deriving DecidableEq, Repr

/-- A domain flow: its node capabilities plus the works it iterates over. -/
structure DomFlow where
  node : DomNode
  works : List DomWork
  deriving DecidableEq, Repr

/-- `MongoTaskResults` embedded document. -/
structure MongoTaskResults where
  initial_structure : String
  final_structure : String
  deriving DecidableEq, Repr

/-- `MongoTaskResults.from_task`: initial structure from
`task.input.structure.as_dict()`; final structure equals the initial one,
refined through `task.open_gsr()` when the task has that capability. -/
def MongoTaskResults.from_task (task : DomTask) : MongoTaskResults :=
  let initial := task.input.struct.sdict
  let final :=
    match task.openGsr with
    | some st => st.sdict
    | none => initial
  { initial_structure := initial, final_structure := final }

/-- `MongoNode` document: the four copied node fields. -/
structure MongoNode where
  node_id : Int
  node_class : String
  status : String
  workdir : String
  deriving DecidableEq, Repr

/-- `MongoNode.from_node`. -/
def MongoNode.from_node (node : DomNode) : MongoNode :=
  { node_class := node.className
    node_id := node.node_id
    status := node.status.str
    workdir := node.workdir }

/-- `MongoEmbeddedNode` embedded document: same four fields. -/
structure MongoEmbeddedNode where
  node_id : Int
  node_class : String
  status : String
  workdir : String
  deriving DecidableEq, Repr

/-- `MongoEmbeddedNode.from_node`. -/
def MongoEmbeddedNode.from_node (node : DomNode) : MongoEmbeddedNode :=
  { node_class := node.className
    node_id := node.node_id
    status := node.status.str
    workdir := node.workdir }

/-- `MongoTask` document (extends `MongoEmbeddedNode`). -/
structure MongoTask extends MongoEmbeddedNode where
  input : String
  input_str : String
  report : String
  num_warnings : Int
  num_errors : Int
  num_comments : Int
  results : MongoTaskResults
  outfiles : MongoFiles
  deriving DecidableEq, Repr

/-- `MongoTask.from_task`: node fields via `cls.from_node(task)`, input
dict and string, the three counters copied off the event report together
with its dict rendering, the results document, and the output files. -/
def MongoTask.from_task (task : DomTask) : Except PyErr MongoTask :=
  match MongoFiles.from_node task.node with
  | .error e => .error e
  | .ok files =>
    .ok { toMongoEmbeddedNode := MongoEmbeddedNode.from_node task.node
          input := task.input.asDict
          input_str := task.input.inputStr
          report := task.eventReport.asDict
          num_errors := task.eventReport.num_errors
          num_comments := task.eventReport.num_comments
          num_warnings := task.eventReport.num_warnings
          results := MongoTaskResults.from_task task
          outfiles := files }

/-- `MongoWork` document (extends `MongoEmbeddedNode`). -/
structure MongoWork extends MongoEmbeddedNode where
  tasks : List MongoTask
  outfiles : MongoFiles
  deriving DecidableEq, Repr

/-- `MongoWork.from_work`: node fields, one `MongoTask` per task of the
domain work in iteration order, and the work-level output files. -/
def MongoWork.from_work (w : DomWork) : Except PyErr MongoWork :=
  match w.tasks.mapM MongoTask.from_task with
  | .error e => .error e
  | .ok ts =>
    match MongoFiles.from_node w.node with
    | .error e => .error e
    | .ok files =>
      .ok { toMongoEmbeddedNode := MongoEmbeddedNode.from_node w.node
            tasks := ts
            outfiles := files }

/-- `MongoFlow` document (extends `MongoNode`). -/
structure MongoFlow extends MongoNode where
  works : List MongoWork
  outfiles : MongoFiles
  deriving DecidableEq, Repr

/-- `MongoFlow.from_flow`: node fields, one `MongoWork` per work of the
domain flow in iteration order, and the flow-level output files. -/
def MongoFlow.from_flow (fl : DomFlow) : Except PyErr MongoFlow :=
  match fl.works.mapM MongoWork.from_work with
  | .error e => .error e
  | .ok ws =>
    match MongoFiles.from_node fl.node with
    | .error e => .error e
    | .ok files =>
      .ok { toMongoNode := MongoNode.from_node fl.node
            works := ws
            outfiles := files }

/-- Python list indexing `l[i]` for an integer `i`: negative indices count
from the end, out-of-range indices raise `IndexError`. -/
def pyListIndex {α : Type} (l : List α) (i : Int) : Except PyErr α :=
  let j : Int := if i < 0 then i + (l.length : Int) else i
  if j < 0 then .error (.indexError "list index out of range")
  else
    match l.get? j.toNat with
    | some a => .ok a
    | none => .error (.indexError "list index out of range")

/-- Python list slicing `l[a:b]` (step 1): bounds are shifted by the
length when negative, clamped into range, and slicing never raises. -/
def pySlice {α : Type} (l : List α) (a b : Option Int) : List α :=
  let n : Int := l.length
  let norm : Int → Int := fun x => if x < 0 then max (x + n) 0 else min x n
  let lo : Int := match a with | none => 0 | some x => norm x
  let hi : Int := match b with | none => n | some x => norm x
  (l.drop lo.toNat).take (hi - lo).toNat

/-- A key passed to `__getitem__`: a string (dictionary-style field
lookup), an integer index, or a slice. -/
inductive GetKey
  | name (s : String)
  | idx (i : Int)
  | slice (a b : Option Int)
  deriving DecidableEq, Repr

/-- A value a `MongoWork.__getitem__` lookup can return. -/
inductive WorkItem
  | vInt (i : Int)
  | vStr (s : String)
  | vTasks (l : List MongoTask)
  | vTask (t : MongoTask)
  | vFiles (f : MongoFiles)
  deriving DecidableEq, Repr

/-- Dictionary-style field lookup of the mongoengine base document
(`super().__getitem__`): succeeds exactly on a declared field name of
`MongoWork` and raises `KeyError` otherwise; an integer or slice key is
never a field name, hence always a `KeyError`. -/
def MongoWork.superGetitem (w : MongoWork) (k : GetKey) :
    Except PyErr WorkItem :=
  match k with
  | .name "node_id" => .ok (.vInt w.node_id)
  | .name "node_class" => .ok (.vStr w.node_class)
  | .name "status" => .ok (.vStr w.status)
  | .name "workdir" => .ok (.vStr w.workdir)
  | .name "tasks" => .ok (.vTasks w.tasks)
  | .name "outfiles" => .ok (.vFiles w.outfiles)
  | .name s => .error (.keyError s)
  | .idx _ => .error (.keyError "int key is not a field name")
  | .slice _ _ => .error (.keyError "slice key is not a field name")

/-- `MongoWork.__getitem__`: try the dictionary-style field lookup of the
super class; on `KeyError` fall back to `self.tasks[name]` (an
`IndexError` there is re-raised, and a string key reaching the list raises
`TypeError`, which is not caught). -/
def MongoWork.getitem (w : MongoWork) (k : GetKey) : Except PyErr WorkItem :=
  match w.superGetitem k with
  | .ok v => .ok v
  | .error (.keyError _) =>
    match k with
    | .idx i => (pyListIndex w.tasks i).map WorkItem.vTask
    | .slice a b => .ok (.vTasks (pySlice w.tasks a b))
    | .name s => .error (.typeError s)
  | .error e => .error e

/-- A value a `MongoFlow.__getitem__` lookup can return. -/
inductive FlowItem
  | vInt (i : Int)
  | vStr (s : String)
  | vWorks (l : List MongoWork)
  | vWork (w : MongoWork)
  | vFiles (f : MongoFiles)
  deriving DecidableEq, Repr

/-- Dictionary-style field lookup of the mongoengine base document for
`MongoFlow`, as for `MongoWork.superGetitem`. -/
def MongoFlow.superGetitem (fl : MongoFlow) (k : GetKey) :
    Except PyErr FlowItem :=
  match k with
  | .name "node_id" => .ok (.vInt fl.node_id)
  | .name "node_class" => .ok (.vStr fl.node_class)
  | .name "status" => .ok (.vStr fl.status)
  | .name "workdir" => .ok (.vStr fl.workdir)
  | .name "works" => .ok (.vWorks fl.works)
  | .name "outfiles" => .ok (.vFiles fl.outfiles)
  | .name s => .error (.keyError s)
  | .idx _ => .error (.keyError "int key is not a field name")
  | .slice _ _ => .error (.keyError "slice key is not a field name")

/-- `MongoFlow.__getitem__`: as for works, with `self.works` as the
fallback sequence. -/
def MongoFlow.getitem (fl : MongoFlow) (k : GetKey) : Except PyErr FlowItem :=
  match fl.superGetitem k with
  | .ok v => .ok v
  | .error (.keyError _) =>
    match k with
    | .idx i => (pyListIndex fl.works i).map FlowItem.vWork
    | .slice a b => .ok (.vWorks (pySlice fl.works a b))
    | .name s => .error (.typeError s)
  | .error e => .error e

/-- The field names of a `MongoWork` document, in `_fields_ordered`
order.  Iterating a mongoengine document (`for task in work:` in
`MongoFlow.delete`) yields exactly these strings, because the mongoengine
base document defines iteration as iteration over its field names — not
over the embedded task list. -/
def mongoWorkFieldNames : List String :=
  ["node_id", "node_class", "status", "workdir", "tasks", "outfiles"]

/-- The `for task in work: task.outfiles.delete()` loop of
`MongoFlow.delete`.  Each iterated item is a field-name string, and
`task.outfiles` on a string raises `AttributeError` at the first item;
no blob deletion is ever attempted by this loop. -/
def taskIterLoop : List String → Option PyErr
  | [] => none
  | n :: _ => some (.attributeError ("str object has no attribute outfiles: " ++ n))

/-- The work loop of `MongoFlow.delete`: for each work document, delete
its own file-set, then run the (broken) task iteration; exceptions
propagate immediately.  Returns attempted blob deletions in order plus
the propagated exception, if any. -/
def deleteWorksSweep : List MongoWork → List Blob × Option PyErr
  | [] => ([], none)
  | w :: rest =>
    let (t1, e1) := w.outfiles.delete
    match e1 with
    | some e => (t1, some e)
    | none =>
      match taskIterLoop mongoWorkFieldNames with
      | some e => (t1, some e)
      | none =>
        let (t2, e2) := deleteWorksSweep rest
        (t1 ++ t2, e2)

/-- Outcome of `MongoFlow.delete`: either a propagated Python exception,
or fuel exhaustion, which models the unconditional trailing
`self.delete()` — a recursive call of the same method on unchanged state,
so the method never returns normally. -/
inductive DelOutcome
  | raised (e : PyErr)
  | noTermination
  deriving DecidableEq, Repr

/-- `MongoFlow.delete`, fuel-indexed: run the work sweep; on an exception
the call raises it; otherwise the final `self.delete()` re-invokes the
method on the unchanged document (the fuel bounds that recursion).
Returns all attempted blob deletions plus the outcome. -/
def MongoFlow.delete : Nat → MongoFlow → List Blob × DelOutcome
  | 0, _ => ([], .noTermination)
  | fuel + 1, fl =>
    match deleteWorksSweep fl.works with
    | (t, some e) => (t, .raised e)
    | (t, none) =>
      let (t2, o) := MongoFlow.delete fuel fl
      (t ++ t2, o)

/-- All populated file slots of a flow document that the spec expects the
delete sweep to visit: for each work, its own file-set followed by those
of its tasks, in order.  (The flow-level file-set is not touched by the
source at all.) -/
def populatedBlobs (fl : MongoFlow) : List Blob :=
  fl.works.flatMap fun w =>
    w.outfiles.populated ++ w.tasks.flatMap fun t => t.outfiles.populated

/-- The file-set record that `MongoFiles.from_node` produces on the
non-raising path: each directory-scanned slot reads back the directory
lookup of its extension, while the `output_file` slot reads back the
node's own main-output accessor. -/
def expectedFiles (node : DomNode) : MongoFiles :=
  { gsr := (node.outdir.has_abiext "GSR.nc").map blobOfFile
    hist := (node.outdir.has_abiext "HIST").map blobOfFile
    phbst := (node.outdir.has_abiext "PHBST.nc").map blobOfFile
    phdos := (node.outdir.has_abiext "PHDOS.nc").map blobOfFile
    sigres := (node.outdir.has_abiext "SIGRES.nc").map blobOfFile
    mdf := (node.outdir.has_abiext "MDF.nc").map blobOfFile
    ddb := (node.outdir.has_abiext "DDB").map blobOfFile
    output_file := node.output_file.map blobOf }

/-! Concrete inputs used by the witnesses and counterexamples below. -/

/-- A blob sitting in a task-level slot of the flow document `c1Flow`. -/
def c1TaskBlob : Blob := { content := "task-gsr-bytes" }

/-- A blob sitting in the work-level file-set of the flow document
`c1Flow`. -/
def c1WorkBlob : Blob := { content := "work-gsr-bytes" }

/-- A stored task document with one populated file slot. -/
def c1Task : MongoTask :=
  { toMongoEmbeddedNode := ⟨11, "ScfTask", "Completed", "/flow/w0/t0"⟩
    input := "{}"
    input_str := "ecut 10"
    report := "{}"
    num_warnings := 0
    num_errors := 0
    num_comments := 0
    results := ⟨"s0", "s0"⟩
    outfiles := { gsr := some c1TaskBlob } }

/-- A stored work document holding `c1Task` and one populated work-level
slot. -/
def c1Work : MongoWork :=
  { toMongoEmbeddedNode := ⟨10, "BandStructureWork", "Completed", "/flow/w0"⟩
    tasks := [c1Task]
    outfiles := { gsr := some c1WorkBlob } }

/-- A stored flow document holding `c1Work`. -/
def c1Flow : MongoFlow :=
  { toMongoNode := ⟨9, "Flow", "Completed", "/flow"⟩
    works := [c1Work]
    outfiles := {} }

/-- A file-set with two populated slots whose first deletion raises. -/
def c1FailFiles : MongoFiles :=
  { gsr := some { content := "bad-gsr", failsDelete := true }
    hist := some { content := "good-hist" } }

/-- A node whose output directory contains a file matching the known
artifact extension `abo`. -/
def c3CexNode : DomNode :=
  { node_id := 1
    className := "ScfTask"
    status := .Completed
    workdir := "/flow/w0/t0"
    outdir := [{ ext := "abo", content := "main output text" }]
    output_file := none }

/-- A task node with two of the seven directory-scanned artifacts present
and a main-output accessor. -/
def c3WitnessNode : DomNode :=
  { node_id := 2
    className := "NscfTask"
    status := .Completed
    workdir := "/flow/w0/t1"
    outdir := [{ ext := "GSR.nc", content := "gsr bytes" },
               { ext := "DDB", content := "ddb text" }]
    output_file := some "run report" }

/-- A task node with a HIST artifact and a main-output accessor. -/
def c4Node : DomNode :=
  { node_id := 3
    className := "RelaxTask"
    status := .Running
    workdir := "/flow/w1/t0"
    outdir := [{ ext := "HIST", content := "hist bytes" }]
    output_file := some "relax log" }

/-- The file-set record produced from `c4Node`. -/
def c4Files : MongoFiles :=
  { hist := some { content := "hist bytes" }
    output_file := some { content := "relax log" } }

/-- A domain task whose event report carries counters (2, 0, 5). -/
def c5Task : DomTask :=
  { node := { node_id := 5
              className := "ScfTask"
              status := .Running
              workdir := "/flow/w0/t5"
              outdir := []
              output_file := some "scf output" }
    input := { asDict := "{input}", inputStr := "ecut 10", struct := ⟨"init-struct"⟩ }
    eventReport := { num_errors := 0, num_comments := 5, num_warnings := 2, asDict := "{report}" }
    openGsr := none }

/-- The task document produced from `c5Task`. -/
def c5Rec : MongoTask :=
  { toMongoEmbeddedNode := ⟨5, "ScfTask", "Running", "/flow/w0/t5"⟩
    input := "{input}"
    input_str := "ecut 10"
    report := "{report}"
    num_warnings := 2
    num_errors := 0
    num_comments := 5
    results := ⟨"init-struct", "init-struct"⟩
    outfiles := { output_file := some { content := "scf output" } } }

/-- A domain task without the `open_gsr` capability. -/
def c6Task : DomTask :=
  { node := { node_id := 6
              className := "NscfTask"
              status := .Completed
              workdir := "/flow/w2/t0"
              outdir := []
              output_file := none }
    input := { asDict := "{in6}", inputStr := "nband 8", struct := ⟨"struct-six"⟩ }
    eventReport := { num_errors := 1, num_comments := 0, num_warnings := 3, asDict := "{rep6}" }
    openGsr := none }

/-- A small stored task document for the lookup witness. -/
def c8Task : MongoTask :=
  { toMongoEmbeddedNode := ⟨81, "ScfTask", "Ready", "/flow/w8/t0"⟩
    input := "{}"
    input_str := "in8"
    report := "{}"
    num_warnings := 0
    num_errors := 0
    num_comments := 0
    results := ⟨"s8", "s8"⟩
    outfiles := {} }

/-- A stored work document for the lookup witness. -/
def c8Work : MongoWork :=
  { toMongoEmbeddedNode := ⟨80, "Work", "Running", "/flow/w8"⟩
    tasks := [c8Task]
    outfiles := {} }

/-- A stored flow document for the lookup witness. -/
def c8Flow : MongoFlow :=
  { toMongoNode := ⟨79, "Flow", "Running", "/flow8"⟩
    works := [c8Work]
    outfiles := {} }

/-- A domain work without a main-output accessor, with one artifact in
its output directory and no tasks. -/
def c10Work : DomWork :=
  { node := { node_id := 100
              className := "PhononWork"
              status := .Completed
              workdir := "/flow/w10"
              outdir := [{ ext := "GSR.nc", content := "work gsr" }]
              output_file := none }
    tasks := [] }

/-- The work document produced from `c10Work`. -/
def c10wRec : MongoWork :=
  { toMongoEmbeddedNode := ⟨100, "PhononWork", "Completed", "/flow/w10"⟩
    tasks := []
    outfiles := { gsr := some { content := "work gsr" } } }

/-- A node without a main-output accessor whose output directory contains
an `abo`-matching file. -/
def c10BadNode : DomNode :=
  { node_id := 101
    className := "RelaxWork"
    status := .Err
    workdir := "/flow/w11"
    outdir := [{ ext := "abo", content := "stray abo" }]
    output_file := none }

/-! Evaluation lemmas: the slot name computed from each extension, and
the behavior of `setSlot` on each computed name.  Note the mismatch on the
last field: the extension `abo` yields the name `"abo"`, which is not the
field name `output_file`. -/

theorem abiextToFname_gsr : abiextToFname "GSR.nc" = "gsr" := by decide

theorem abiextToFname_hist : abiextToFname "HIST" = "hist" := by decide

theorem abiextToFname_phbst : abiextToFname "PHBST.nc" = "phbst" := by decide

theorem abiextToFname_phdos : abiextToFname "PHDOS.nc" = "phdos" := by decide

theorem abiextToFname_sigres : abiextToFname "SIGRES.nc" = "sigres" := by decide

theorem abiextToFname_mdf : abiextToFname "MDF.nc" = "mdf" := by decide

theorem abiextToFname_ddb : abiextToFname "DDB" = "ddb" := by decide

theorem abiextToFname_abo : abiextToFname "abo" = "abo" := by decide

theorem setSlot_gsr (fs : MongoFiles) (b : Blob) :
    fs.setSlot "gsr" b = .ok { fs with gsr := some b } := rfl

theorem setSlot_hist (fs : MongoFiles) (b : Blob) :
    fs.setSlot "hist" b = .ok { fs with hist := some b } := rfl

theorem setSlot_phbst (fs : MongoFiles) (b : Blob) :
    fs.setSlot "phbst" b = .ok { fs with phbst := some b } := rfl

theorem setSlot_phdos (fs : MongoFiles) (b : Blob) :
    fs.setSlot "phdos" b = .ok { fs with phdos := some b } := rfl

theorem setSlot_sigres (fs : MongoFiles) (b : Blob) :
    fs.setSlot "sigres" b = .ok { fs with sigres := some b } := rfl

theorem setSlot_mdf (fs : MongoFiles) (b : Blob) :
    fs.setSlot "mdf" b = .ok { fs with mdf := some b } := rfl

theorem setSlot_ddb (fs : MongoFiles) (b : Blob) :
    fs.setSlot "ddb" b = .ok { fs with ddb := some b } := rfl

theorem setSlot_abo (fs : MongoFiles) (b : Blob) :
    fs.setSlot "abo" b = .error (.attributeError "abo") := rfl

/-! Step lemmas: one pass of the `from_node` field loop per field,
stated uniformly so that the result slot reads back the directory
lookup. -/

theorem fromNodeLoop_gsr (node : DomNode) (rest : List (String × String))
    (fs : MongoFiles) (hfs : fs.gsr = none) :
    fromNodeLoop node (("gsr", "GSR.nc") :: rest) fs =
      fromNodeLoop node rest
        { fs with gsr := (node.outdir.has_abiext "GSR.nc").map blobOfFile } := by
  cases hg : node.outdir.has_abiext "GSR.nc" with
  | none =>
    have hrec : ({ fs with gsr := none } : MongoFiles) = fs := by
      cases fs; simp_all
    simp [fromNodeLoop, hg, hrec]
  | some f =>
    simp [fromNodeLoop, hg, abiextToFname_gsr, setSlot_gsr]

theorem fromNodeLoop_hist (node : DomNode) (rest : List (String × String))
    (fs : MongoFiles) (hfs : fs.hist = none) :
    fromNodeLoop node (("hist", "HIST") :: rest) fs =
      fromNodeLoop node rest
        { fs with hist := (node.outdir.has_abiext "HIST").map blobOfFile } := by
  cases hg : node.outdir.has_abiext "HIST" with
  | none =>
    have hrec : ({ fs with hist := none } : MongoFiles) = fs := by
      cases fs; simp_all
    simp [fromNodeLoop, hg, hrec]
  | some f =>
    simp [fromNodeLoop, hg, abiextToFname_hist, setSlot_hist]

theorem fromNodeLoop_phbst (node : DomNode) (rest : List (String × String))
    (fs : MongoFiles) (hfs : fs.phbst = none) :
    fromNodeLoop node (("phbst", "PHBST.nc") :: rest) fs =
      fromNodeLoop node rest
        { fs with phbst := (node.outdir.has_abiext "PHBST.nc").map blobOfFile } := by
  cases hg : node.outdir.has_abiext "PHBST.nc" with
  | none =>
    have hrec : ({ fs with phbst := none } : MongoFiles) = fs := by
      cases fs; simp_all
    simp [fromNodeLoop, hg, hrec]
  | some f =>
    simp [fromNodeLoop, hg, abiextToFname_phbst, setSlot_phbst]

theorem fromNodeLoop_phdos (node : DomNode) (rest : List (String × String))
    (fs : MongoFiles) (hfs : fs.phdos = none) :
    fromNodeLoop node (("phdos", "PHDOS.nc") :: rest) fs =
      fromNodeLoop node rest
        { fs with phdos := (node.outdir.has_abiext "PHDOS.nc").map blobOfFile } := by
  cases hg : node.outdir.has_abiext "PHDOS.nc" with
  | none =>
    have hrec : ({ fs with phdos := none } : MongoFiles) = fs := by
      cases fs; simp_all
    simp [fromNodeLoop, hg, hrec]
  | some f =>
    simp [fromNodeLoop, hg, abiextToFname_phdos, setSlot_phdos]

theorem fromNodeLoop_sigres (node : DomNode) (rest : List (String × String))
    (fs : MongoFiles) (hfs : fs.sigres = none) :
    fromNodeLoop node (("sigres", "SIGRES.nc") :: rest) fs =
      fromNodeLoop node rest
        { fs with sigres := (node.outdir.has_abiext "SIGRES.nc").map blobOfFile } := by
  cases hg : node.outdir.has_abiext "SIGRES.nc" with
  | none =>
    have hrec : ({ fs with sigres := none } : MongoFiles) = fs := by
      cases fs; simp_all
    simp [fromNodeLoop, hg, hrec]
  | some f =>
    simp [fromNodeLoop, hg, abiextToFname_sigres, setSlot_sigres]

theorem fromNodeLoop_mdf (node : DomNode) (rest : List (String × String))
    (fs : MongoFiles) (hfs : fs.mdf = none) :
    fromNodeLoop node (("mdf", "MDF.nc") :: rest) fs =
      fromNodeLoop node rest
        { fs with mdf := (node.outdir.has_abiext "MDF.nc").map blobOfFile } := by
  cases hg : node.outdir.has_abiext "MDF.nc" with
  | none =>
    have hrec : ({ fs with mdf := none } : MongoFiles) = fs := by
      cases fs; simp_all
    simp [fromNodeLoop, hg, hrec]
  | some f =>
    simp [fromNodeLoop, hg, abiextToFname_mdf, setSlot_mdf]

theorem fromNodeLoop_ddb (node : DomNode) (rest : List (String × String))
    (fs : MongoFiles) (hfs : fs.ddb = none) :
    fromNodeLoop node (("ddb", "DDB") :: rest) fs =
      fromNodeLoop node rest
        { fs with ddb := (node.outdir.has_abiext "DDB").map blobOfFile } := by
  cases hg : node.outdir.has_abiext "DDB" with
  | none =>
    have hrec : ({ fs with ddb := none } : MongoFiles) = fs := by
      cases fs; simp_all
    simp [fromNodeLoop, hg, hrec]
  | some f =>
    simp [fromNodeLoop, hg, abiextToFname_ddb, setSlot_ddb]

theorem fromNodeLoop_abo (node : DomNode) (fs : MongoFiles)
    (habo : node.outdir.has_abiext "abo" = none) :
    fromNodeLoop node [("output_file", "abo")] fs = .ok fs := by
  simp [fromNodeLoop, habo]

theorem fromNodeLoop_abo_err (node : DomNode) (fs : MongoFiles) (f : DirFile)
    (habo : node.outdir.has_abiext "abo" = some f) :
    fromNodeLoop node [("output_file", "abo")] fs =
      .error (.attributeError "abo") := by
  simp [fromNodeLoop, habo, abiextToFname_abo, setSlot_abo]

theorem from_node_eq_of_no_abo (node : DomNode)
    (habo : node.outdir.has_abiext "abo" = none) :
    MongoFiles.from_node node = .ok (expectedFiles node) := by
  unfold MongoFiles.from_node mongoFilesFieldExts
  rw [fromNodeLoop_gsr _ _ _ rfl, fromNodeLoop_hist _ _ _ rfl,
    fromNodeLoop_phbst _ _ _ rfl, fromNodeLoop_phdos _ _ _ rfl,
    fromNodeLoop_sigres _ _ _ rfl, fromNodeLoop_mdf _ _ _ rfl,
    fromNodeLoop_ddb _ _ _ rfl, fromNodeLoop_abo _ _ habo]
  cases ho : node.output_file <;> simp [expectedFiles, ho, blobOf]

theorem from_node_err_of_abo (node : DomNode) (f : DirFile)
    (habo : node.outdir.has_abiext "abo" = some f) :
    MongoFiles.from_node node = .error (.attributeError "abo") := by
  unfold MongoFiles.from_node mongoFilesFieldExts
  rw [fromNodeLoop_gsr _ _ _ rfl, fromNodeLoop_hist _ _ _ rfl,
    fromNodeLoop_phbst _ _ _ rfl, fromNodeLoop_phdos _ _ _ rfl,
    fromNodeLoop_sigres _ _ _ rfl, fromNodeLoop_mdf _ _ _ rfl,
    fromNodeLoop_ddb _ _ _ rfl, fromNodeLoop_abo_err _ _ _ habo]

theorem no_abo_of_from_node_ok (node : DomNode) (fs : MongoFiles)
    (h : MongoFiles.from_node node = .ok fs) :
    node.outdir.has_abiext "abo" = none := by
  cases habo : node.outdir.has_abiext "abo" with
  | none => rfl
  | some f =>
    rw [from_node_err_of_abo node f habo] at h
    exact absurd h (by simp)

theorem fs_eq_of_from_node_ok (node : DomNode) (fs : MongoFiles)
    (h : MongoFiles.from_node node = .ok fs) :
    fs = expectedFiles node := by
  have habo := no_abo_of_from_node_ok node fs h
  rw [from_node_eq_of_no_abo node habo] at h
  exact (Except.ok.inj h).symm

/-- C1: evaluation of `MongoFlow.delete` at a failing input.  The claim
says deletion is attempted for every populated slot across every task and
work and that a failure for one slot does not prevent the rest.  The code
instead (a) iterates `for task in work` over the `MongoWork` document,
which yields its field-name strings, so it raises `AttributeError` after
attempting only the first work's own slots and never reaches any task
slot, and (b) wraps no slot deletion in a try/except, so a failing
GridFS delete aborts `MongoFiles.delete` with later populated slots
unattempted. -/
theorem C1_flow_delete_bug :
    MongoFlow.delete 3 c1Flow =
      ([c1WorkBlob],
        .raised (.attributeError "str object has no attribute outfiles: node_id")) ∧
    c1TaskBlob ∈ populatedBlobs c1Flow ∧
    c1TaskBlob ∉ (MongoFlow.delete 3 c1Flow).1 ∧
    c1FailFiles.delete =
      ([{ content := "bad-gsr", failsDelete := true }],
        some (.gridFsError "bad-gsr")) ∧
    some { content := "good-hist", failsDelete := false } ∈ c1FailFiles.slotsList := by
  refine ⟨rfl, ?_, ?_, rfl, ?_⟩ <;> decide

/-- C2: converting a domain node with `from_node` (both the top-level and
the embedded variant) produces a node record whose four fields read back
exactly the node's identifier, its class name, the string form of its
status, and its working directory. -/
theorem C2_node_record_roundtrip (node : DomNode) :
    ((MongoNode.from_node node).node_id = node.node_id ∧
      (MongoNode.from_node node).node_class = node.className ∧
      (MongoNode.from_node node).status = node.status.str ∧
      (MongoNode.from_node node).workdir = node.workdir) ∧
    ((MongoEmbeddedNode.from_node node).node_id = node.node_id ∧
      (MongoEmbeddedNode.from_node node).node_class = node.className ∧
      (MongoEmbeddedNode.from_node node).status = node.status.str ∧
      (MongoEmbeddedNode.from_node node).workdir = node.workdir) :=
  ⟨⟨rfl, rfl, rfl, rfl⟩, ⟨rfl, rfl, rfl, rfl⟩⟩

/-- C3 counterexample: a node whose output directory contains a file
matching the claimed artifact extension `abo` makes `from_node` raise an
`AttributeError` (the computed slot name "abo" names no field) instead of
producing a record with populated slots, refuting the claim that such a
directory content yields a record and never an error. -/
theorem C3_counterexample :
    c3CexNode.outdir.has_abiext "abo" = some { ext := "abo", content := "main output text" } ∧
    MongoFiles.from_node c3CexNode = .error (.attributeError "abo") :=
  ⟨rfl, from_node_err_of_abo c3CexNode _ rfl⟩

/-- C3 (amended): for every node whose output directory contains no
`abo`-matching file, `from_node` succeeds and the seven directory-scanned
slots are populated exactly for the extensions present in the output
directory (with the file's content) and left empty for the rest, while
the `output_file` slot is populated exactly when the node exposes a
main-output accessor. -/
theorem C3_slot_population (node : DomNode)
    (habo : node.outdir.has_abiext "abo" = none) :
    ∃ fs, MongoFiles.from_node node = Except.ok fs ∧
      fs.gsr = (node.outdir.has_abiext "GSR.nc").map blobOfFile ∧
      fs.hist = (node.outdir.has_abiext "HIST").map blobOfFile ∧
      fs.phbst = (node.outdir.has_abiext "PHBST.nc").map blobOfFile ∧
      fs.phdos = (node.outdir.has_abiext "PHDOS.nc").map blobOfFile ∧
      fs.sigres = (node.outdir.has_abiext "SIGRES.nc").map blobOfFile ∧
      fs.mdf = (node.outdir.has_abiext "MDF.nc").map blobOfFile ∧
      fs.ddb = (node.outdir.has_abiext "DDB").map blobOfFile ∧
      fs.output_file = node.output_file.map blobOf :=
  ⟨expectedFiles node, from_node_eq_of_no_abo node habo,
    rfl, rfl, rfl, rfl, rfl, rfl, rfl, rfl⟩

/-- C3 witness: the amended claim evaluated on a node holding a GSR.nc
and a DDB artifact. -/
theorem C3_slot_population_witness :
    ∃ fs, MongoFiles.from_node c3WitnessNode = Except.ok fs ∧
      fs.gsr = (c3WitnessNode.outdir.has_abiext "GSR.nc").map blobOfFile ∧
      fs.hist = (c3WitnessNode.outdir.has_abiext "HIST").map blobOfFile ∧
      fs.phbst = (c3WitnessNode.outdir.has_abiext "PHBST.nc").map blobOfFile ∧
      fs.phdos = (c3WitnessNode.outdir.has_abiext "PHDOS.nc").map blobOfFile ∧
      fs.sigres = (c3WitnessNode.outdir.has_abiext "SIGRES.nc").map blobOfFile ∧
      fs.mdf = (c3WitnessNode.outdir.has_abiext "MDF.nc").map blobOfFile ∧
      fs.ddb = (c3WitnessNode.outdir.has_abiext "DDB").map blobOfFile ∧
      fs.output_file = c3WitnessNode.output_file.map blobOf :=
  C3_slot_population c3WitnessNode rfl

/-- C4: whenever `MongoFiles.from_node` produces a record, the
`output_file` slot reads back the node's own main-output accessor (not
the output directory), while each of the seven other artifact slots reads
back the output-directory lookup of its extension. -/
theorem C4_output_file_asymmetry (node : DomNode) (fs : MongoFiles)
    (h : MongoFiles.from_node node = Except.ok fs) :
    fs.output_file = node.output_file.map blobOf ∧
    fs.gsr = (node.outdir.has_abiext "GSR.nc").map blobOfFile ∧
    fs.hist = (node.outdir.has_abiext "HIST").map blobOfFile ∧
    fs.phbst = (node.outdir.has_abiext "PHBST.nc").map blobOfFile ∧
    fs.phdos = (node.outdir.has_abiext "PHDOS.nc").map blobOfFile ∧
    fs.sigres = (node.outdir.has_abiext "SIGRES.nc").map blobOfFile ∧
    fs.mdf = (node.outdir.has_abiext "MDF.nc").map blobOfFile ∧
    fs.ddb = (node.outdir.has_abiext "DDB").map blobOfFile := by
  have hfs := fs_eq_of_from_node_ok node fs h
  subst hfs
  exact ⟨rfl, rfl, rfl, rfl, rfl, rfl, rfl, rfl⟩

/-- C4 witness: the asymmetry evaluated on a node with a HIST artifact in
its output directory and a main-output accessor. -/
theorem C4_output_file_asymmetry_witness :
    c4Files.output_file = c4Node.output_file.map blobOf ∧
    c4Files.gsr = (c4Node.outdir.has_abiext "GSR.nc").map blobOfFile ∧
    c4Files.hist = (c4Node.outdir.has_abiext "HIST").map blobOfFile ∧
    c4Files.phbst = (c4Node.outdir.has_abiext "PHBST.nc").map blobOfFile ∧
    c4Files.phdos = (c4Node.outdir.has_abiext "PHDOS.nc").map blobOfFile ∧
    c4Files.sigres = (c4Node.outdir.has_abiext "SIGRES.nc").map blobOfFile ∧
    c4Files.mdf = (c4Node.outdir.has_abiext "MDF.nc").map blobOfFile ∧
    c4Files.ddb = (c4Node.outdir.has_abiext "DDB").map blobOfFile :=
  C4_output_file_asymmetry c4Node c4Files rfl

/-- C5: whenever `MongoTask.from_task` produces a task record, its three
counters are copied verbatim from the task's event report (quality
summary) at construction time. -/
theorem C5_counters_copied (task : DomTask) (rec : MongoTask)
    (h : MongoTask.from_task task = Except.ok rec) :
    rec.num_warnings = task.eventReport.num_warnings ∧
    rec.num_errors = task.eventReport.num_errors ∧
    rec.num_comments = task.eventReport.num_comments := by
  unfold MongoTask.from_task at h
  cases hf : MongoFiles.from_node task.node with
  | error e =>
    rw [hf] at h
    exact absurd h (by simp)
  | ok files =>
    rw [hf] at h
    injection h with h2
    subst h2
    exact ⟨rfl, rfl, rfl⟩

/-- C5 witness: a task whose summary reports warnings=2, errors=0,
comments=5 yields a task record with counters (2, 0, 5). -/
theorem C5_counters_copied_witness :
    MongoTask.from_task c5Task = Except.ok c5Rec ∧
    c5Rec.num_warnings = 2 ∧ c5Rec.num_errors = 0 ∧ c5Rec.num_comments = 5 := by
  have h := C5_counters_copied c5Task c5Rec rfl
  exact ⟨rfl, h.1.trans rfl, h.2.1.trans rfl, h.2.2.trans rfl⟩

/-- C6: for a task without the `open_gsr` capability, the results record
has `final_structure` equal to `initial_structure`. -/
theorem C6_final_equals_initial (task : DomTask) (h : task.openGsr = none) :
    (MongoTaskResults.from_task task).final_structure =
      (MongoTaskResults.from_task task).initial_structure := by
  simp [MongoTaskResults.from_task, h]

/-- C6 witness: the property evaluated on a concrete task without the
`open_gsr` capability. -/
theorem C6_final_equals_initial_witness :
    (MongoTaskResults.from_task c6Task).final_structure =
      (MongoTaskResults.from_task c6Task).initial_structure :=
  C6_final_equals_initial c6Task rfl

/-- C8: for work and flow records, indexed lookup first attempts the
dictionary-style field lookup and a successful field lookup always wins;
an integer or slice key is never a field name, so it always falls through
(on the KeyError) to indexing the embedded sequence — `tasks` for a work,
`works` for a flow. -/
theorem C8_getitem_dict_first :
    (∀ (w : MongoWork) (s : String) (v : WorkItem),
        w.superGetitem (.name s) = .ok v → w.getitem (.name s) = .ok v) ∧
    (∀ (w : MongoWork) (i : Int),
        w.getitem (.idx i) = (pyListIndex w.tasks i).map WorkItem.vTask) ∧
    (∀ (w : MongoWork) (a b : Option Int),
        w.getitem (.slice a b) = .ok (.vTasks (pySlice w.tasks a b))) ∧
    (∀ (fl : MongoFlow) (s : String) (v : FlowItem),
        fl.superGetitem (.name s) = .ok v → fl.getitem (.name s) = .ok v) ∧
    (∀ (fl : MongoFlow) (i : Int),
        fl.getitem (.idx i) = (pyListIndex fl.works i).map FlowItem.vWork) ∧
    (∀ (fl : MongoFlow) (a b : Option Int),
        fl.getitem (.slice a b) = .ok (.vWorks (pySlice fl.works a b))) := by
  refine ⟨?_, ?_, ?_, ?_, ?_, ?_⟩
  · intro w s v h
    simp [MongoWork.getitem, h]
  · intro w i
    simp [MongoWork.getitem, MongoWork.superGetitem]
  · intro w a b
    simp [MongoWork.getitem, MongoWork.superGetitem]
  · intro fl s v h
    simp [MongoFlow.getitem, h]
  · intro fl i
    simp [MongoFlow.getitem, MongoFlow.superGetitem]
  · intro fl a b
    simp [MongoFlow.getitem, MongoFlow.superGetitem]

/-- C8 witness: dictionary-style lookups and integer-index fallbacks
evaluated on a concrete work and flow. -/
theorem C8_getitem_dict_first_witness :
    c8Work.getitem (.name "workdir") = .ok (.vStr "/flow/w8") ∧
    c8Work.getitem (.idx 0) = (pyListIndex c8Work.tasks 0).map WorkItem.vTask ∧
    c8Flow.getitem (.name "status") = .ok (.vStr "Running") ∧
    c8Flow.getitem (.idx (-1)) = (pyListIndex c8Flow.works (-1)).map FlowItem.vWork := by
  have h := C8_getitem_dict_first
  exact ⟨h.1 c8Work "workdir" (.vStr "/flow/w8") rfl,
         h.2.1 c8Work 0,
         h.2.2.2.1 c8Flow "status" (.vStr "Running") rfl,
         h.2.2.2.2.1 c8Flow (-1)⟩

/-- C10 counterexample: a node without a main-output accessor whose
output directory happens to contain an `abo`-matching file makes the
conversion raise an `AttributeError` instead of completing without
error, refuting the claim as stated. -/
theorem C10_counterexample :
    c10BadNode.output_file = none ∧
    MongoFiles.from_node c10BadNode = .error (.attributeError "abo") :=
  ⟨rfl, from_node_err_of_abo c10BadNode _ rfl⟩

/-- C10 (amended): for every node without a main-output accessor whose
output directory contains no `abo`-matching file, the conversion
completes without error and leaves the `output_file` slot empty; in
particular any work or flow conversion that succeeds leaves the
work-level or flow-level `output_file` slot empty when the domain object
lacks the accessor. -/
theorem C10_no_accessor_empty_slot :
    (∀ node : DomNode, node.output_file = none →
        node.outdir.has_abiext "abo" = none →
        ∃ fs, MongoFiles.from_node node = Except.ok fs ∧ fs.output_file = none) ∧
    (∀ (w : DomWork) (wrec : MongoWork),
        w.node.output_file = none → MongoWork.from_work w = Except.ok wrec →
        wrec.outfiles.output_file = none) ∧
    (∀ (fl : DomFlow) (frec : MongoFlow),
        fl.node.output_file = none → MongoFlow.from_flow fl = Except.ok frec →
        frec.outfiles.output_file = none) := by
  refine ⟨?_, ?_, ?_⟩
  · intro node h1 h2
    exact ⟨expectedFiles node, from_node_eq_of_no_abo node h2,
      by simp [expectedFiles, h1]⟩
  · intro w wrec h1 h2
    unfold MongoWork.from_work at h2
    cases hm : w.tasks.mapM MongoTask.from_task with
    | error e =>
      rw [hm] at h2
      exact absurd h2 (by simp)
    | ok ts =>
      rw [hm] at h2
      cases hf : MongoFiles.from_node w.node with
      | error e =>
        rw [hf] at h2
        exact absurd h2 (by simp)
      | ok files =>
        rw [hf] at h2
        injection h2 with h3
        subst h3
        have hfe := fs_eq_of_from_node_ok w.node files hf
        subst hfe
        simp [expectedFiles, h1]
  · intro fl frec h1 h2
    unfold MongoFlow.from_flow at h2
    cases hm : fl.works.mapM MongoWork.from_work with
    | error e =>
      rw [hm] at h2
      exact absurd h2 (by simp)
    | ok ws =>
      rw [hm] at h2
      cases hf : MongoFiles.from_node fl.node with
      | error e =>
        rw [hf] at h2
        exact absurd h2 (by simp)
      | ok files =>
        rw [hf] at h2
        injection h2 with h3
        subst h3
        have hfe := fs_eq_of_from_node_ok fl.node files hf
        subst hfe
        simp [expectedFiles, h1]

/-- C10 witness: the amended claim evaluated on a concrete work-like node
without a main-output accessor, and on a concrete domain work converted
with `from_work`. -/
theorem C10_no_accessor_empty_slot_witness :
    (∃ fs, MongoFiles.from_node c10Work.node = Except.ok fs ∧
      fs.output_file = none) ∧
    c10wRec.outfiles.output_file = none :=
  ⟨C10_no_accessor_empty_slot.1 c10Work.node rfl rfl,
   C10_no_accessor_empty_slot.2.1 c10Work c10wRec rfl rfl⟩

end Abiflows
